import Mathlib

/-!
# Verification of the credential and OTP lifecycle engine

Shallow embedding of the OTP/auth code of this repository:
`src/services/otpService.js`, `src/services/userService.js`,
`src/utils/validation.js` (shipped as `src/unnamed/part_003`), the route
handlers of `src/routes/user.js`, and the bcrypt-hash `storeOTP` variant of
`src/routes/test.js`.

Modelling conventions:
* The supabase store is a `List` of records; millisecond epoch timestamps are
  `Int`; JS strings are `String`.
* `.select(...).eq(...)....single()` returns the row when the filter matches
  exactly one row, and the error path (caught by the callers as "absent")
  otherwise.
* `Math.random()` is an arbitrary rational `r` with `0 ≤ r < 1`.
* `bcrypt.hash` is an uninterpreted function parameter `hash`;
  `bcrypt.compare` called with an absent hash rejects ("data and hash
  arguments required", the library's behaviour), modelled with `Except`.
* A missing JSON request field is the empty string (JS falsy check `!x`).
* Display-only columns (`full_name`, `updated_at`, avatar …) that no claim
  mentions are omitted from the record types.
-/

namespace SupabaseAuth

/-! ## Constants (`src/config/constants.js`) -/

def OTP_EXPIRY_MINUTES : Int := 10

def RATE_LIMIT_MS : Int := 60 * 1000

/-- JS `String.prototype.toLowerCase()` (ASCII-relevant part), written over
the character list so that it evaluates by kernel reduction. -/
def jsToLower (s : String) : String :=
  String.mk (s.data.map Char.toLower)

/-- JS `String.prototype.trim()`: strip leading and trailing whitespace. -/
def jsTrim (s : String) : String :=
  String.mk (((s.data.dropWhile Char.isWhitespace).reverse.dropWhile
    Char.isWhitespace).reverse)

/-! ## OTP data model (`otp_codes` table as used by `src/services/otpService.js`) -/

structure OtpRecord where
  id : Nat
  email : String
  otp_code : String
  purpose : String
  expires_at : Int
  created_at : Int
  used : Bool
deriving Repr, DecidableEq

structure VerifyResult where
  valid : Bool
  message : Option String
deriving Repr, DecidableEq

/-- `OTPService.generateOTP`:
`Math.floor(100000 + Math.random() * 900000)`, with `Math.random()` an
arbitrary rational in `[0, 1)`. -/
def generateOTP (r : ℚ) : ℕ :=
  (Int.floor (100000 + r * 900000)).toNat

/-- The `.eq` filter chain of `OTPService.verifyOTP`:
`email = lower(email) AND otp_code = otp AND purpose = purpose AND used = false`. -/
def matchesVerify (email otp purpose : String) (r : OtpRecord) : Bool :=
  r.email == jsToLower email && r.otp_code == otp && r.purpose == purpose && r.used == false

/-- `.select(...).single()`: the row when the filter matches exactly one row,
otherwise the error path (`error || !otpRecord`). -/
def selectSingle (p : OtpRecord → Bool) (store : List OtpRecord) : Option OtpRecord :=
  match store.filter p with
  | [r] => some r
  | _ => none

/-- `OTPService.markOTPAsUsed`: `update({used: true}).eq('id', otpId)` —
unconditional update keyed on `id` alone, with no `used = false` guard. -/
def markOTPAsUsed (store : List OtpRecord) (otpId : Nat) : List OtpRecord :=
  store.map (fun r => if r.id == otpId then { r with used := true } else r)

/-- The read step of `OTPService.verifyOTP` (the `supabase...single()` call). -/
def verifySelect (store : List OtpRecord) (email otp purpose : String) : Option OtpRecord :=
  selectSingle (matchesVerify email otp purpose) store

/-- The remainder of `OTPService.verifyOTP` after the read: expiry check, then
`markOTPAsUsed` on both the expired and the valid path. -/
def verifyFinish (store : List OtpRecord) (found : Option OtpRecord) (now : Int) :
    VerifyResult × List OtpRecord :=
  match found with
  | none => ({ valid := false, message := some "Invalid OTP code" }, store)
  | some r =>
    if now > r.expires_at then
      ({ valid := false, message := some "OTP code has expired" }, markOTPAsUsed store r.id)
    else
      ({ valid := true, message := none }, markOTPAsUsed store r.id)

/-- `OTPService.verifyOTP` run to completion with no interleaved writer:
read, then expiry check and mark-used. -/
def verifyOTP (store : List OtpRecord) (email otp purpose : String) (now : Int) :
    VerifyResult × List OtpRecord :=
  verifyFinish store (verifySelect store email otp purpose) now

/-- Two concurrent `verifyOTP` calls for the same code under the interleaving
read-A, read-B, mark-A, mark-B: both reads happen before either write.
Each call is the two store operations of the source (`single()` select, then
`markOTPAsUsed`), with nothing atomic between them. -/
def raceBothReadFirst (store : List OtpRecord) (email otp purpose : String)
    (nowA nowB : Int) : (VerifyResult × VerifyResult) × List OtpRecord :=
  let foundA := verifySelect store email otp purpose
  let foundB := verifySelect store email otp purpose
  let resA := verifyFinish store foundA nowA
  let resB := verifyFinish resA.2 foundB nowB
  ((resA.1, resB.1), resB.2)

/-- The row built by `OTPService.storeOTP` when the upsert inserts. -/
def newOtpRow (freshId : Nat) (email otp purpose : String) (now : Int) : OtpRecord :=
  { id := freshId
    email := jsToLower email
    otp_code := otp
    purpose := purpose
    expires_at := now + OTP_EXPIRY_MINUTES * 60 * 1000
    created_at := now
    used := false }

/-- `OTPService.storeOTP` of `src/services/otpService.js`:
`upsert([...], { onConflict: 'email' })` — conflict target is `email` ALONE,
so an existing row for the same email is overwritten (all supplied columns,
`purpose` included) whatever its purpose; otherwise a fresh row is inserted. -/
def storeOTP (store : List OtpRecord) (email otp purpose : String) (now : Int)
    (freshId : Nat) : List OtpRecord :=
  if store.any (fun r => r.email == jsToLower email) then
    store.map (fun r =>
      if r.email == jsToLower email then
        { r with otp_code := otp, purpose := purpose,
                 expires_at := now + OTP_EXPIRY_MINUTES * 60 * 1000,
                 created_at := now, used := false }
      else r)
  else
    store ++ [newOtpRow freshId email otp purpose now]

/-- Row of the `otp_codes` table as used by the bcrypt variant of
`OTPService.storeOTP` in `src/routes/test.js`: it has an `otp_hash` column
AND still the plaintext `otp_code` column. -/
structure OtpRecordH where
  id : Nat
  email : String
  otp_hash : String
  otp_code : String
  purpose : String
  expires_at : Int
  created_at : Int
  used : Bool
deriving Repr, DecidableEq

/-- The bcrypt-hash `OTPService.storeOTP` variant of `src/routes/test.js`:
`otp_hash: await bcrypt.hash(otp, 10)` but ALSO `otp_code: otp`, upserted with
`onConflict: ['email', 'purpose']`. `bhash` is the uninterpreted bcrypt hash. -/
def storeOTPHashed (bhash : String → String) (store : List OtpRecordH)
    (email otp purpose : String) (now : Int) (freshId : Nat) : List OtpRecordH :=
  if store.any (fun r => r.email == jsToLower email && r.purpose == purpose) then
    store.map (fun r =>
      if r.email == jsToLower email && r.purpose == purpose then
        { r with otp_hash := bhash otp, otp_code := otp,
                 expires_at := now + OTP_EXPIRY_MINUTES * 60 * 1000,
                 created_at := now, used := false }
      else r)
  else
    store ++ [{ id := freshId, email := jsToLower email, otp_hash := bhash otp,
                otp_code := otp, purpose := purpose,
                expires_at := now + OTP_EXPIRY_MINUTES * 60 * 1000,
                created_at := now, used := false }]

structure RateLimitResult where
  limited : Bool
  retryAfter : Option Nat
deriving Repr, DecidableEq

/-- The `order('created_at', descending).limit(1).single()` query of
`OTPService.checkRateLimit`: the most recently created row for
(lowercased email, purpose), absent when there is none. -/
def mostRecent (store : List OtpRecord) (email purpose : String) : Option OtpRecord :=
  (store.filter (fun r => r.email == jsToLower email && r.purpose == purpose)).foldl
    (fun acc r =>
      match acc with
      | none => some r
      | some b => if r.created_at > b.created_at then some r else some b)
    none

/-- `OTPService.checkRateLimit`: limited iff the most recent issuance for
(email, purpose) is less than `RATE_LIMIT_MS` old; `retryAfter` is
`Math.ceil((RATE_LIMIT_MS - timeSinceLastOtp) / 1000)`, the ceiling written as
`(a + 999) / 1000` on the (positive) remaining milliseconds. -/
def checkRateLimit (store : List OtpRecord) (email purpose : String) (now : Int) :
    RateLimitResult :=
  match mostRecent store email purpose with
  | none => { limited := false, retryAfter := none }
  | some lastOtp =>
    let timeSinceLastOtp := now - lastOtp.created_at
    if timeSinceLastOtp < RATE_LIMIT_MS then
      { limited := true
        retryAfter := some (((RATE_LIMIT_MS - timeSinceLastOtp).toNat + 999) / 1000) }
    else
      { limited := false, retryAfter := none }

/-! ## Profiles and user service (`src/services/userService.js`) -/

structure Profile where
  id : Nat
  email : String
  password_hash : Option String
deriving Repr, DecidableEq

/-- `UserService.findByEmail`: `select('*').eq('email', lower).single()`;
the `PGRST116` (no row) error is swallowed and yields absent. -/
def findByEmail (profiles : List Profile) (email : String) : Option Profile :=
  match profiles.filter (fun p => p.email == jsToLower email) with
  | [p] => some p
  | _ => none

/-- `UserService.updatePasswordByEmail`: hash the new password, update every
row with the (lowercased) email, return the first updated row (`data[0]`,
absent when no row matched). `hash` is the uninterpreted `bcrypt.hash`. -/
def updatePasswordByEmail (hash : String → String) (profiles : List Profile)
    (email newPassword : String) : Option Profile × List Profile :=
  let updated := profiles.map (fun p =>
    if p.email == jsToLower email then { p with password_hash := some (hash newPassword) }
    else p)
  match updated.filter (fun p => p.email == jsToLower email) with
  | [] => (none, updated)
  | p :: _ => (some p, updated)

/-- `UserService.verifyPassword` of `src/services/userService.js` (unguarded):
`bcrypt.compare(password, hashedPassword)` with the stored hash passed through
as-is. `bcrypt.compare` rejects with "data and hash arguments required" when
the hash argument is null/undefined; `check` is the uninterpreted comparison
on present hashes. -/
def verifyPassword (check : String → String → Bool) (password : String)
    (hashedPassword : Option String) : Except String Bool :=
  match hashedPassword with
  | none => Except.error "data and hash arguments required"
  | some h => Except.ok (check password h)

/-- `UserService.verifyPassword` of the variant shipped as
`src/unnamed/part_005` (guarded): `if (!hashedPassword) return false` —
Google-only users have no password — then `bcrypt.compare`. -/
def verifyPassword_guarded (check : String → String → Bool) (password : String)
    (hashedPassword : Option String) : Except String Bool :=
  match hashedPassword with
  | none => Except.ok false
  | some h => Except.ok (check password h)

/-! ## Validation utils (`src/unnamed/part_003`) -/

/-- Whether the (non-first, non-last) interior of `l` contains a dot; the
`[^\s@]+\.[^\s@]+` tail of the email regex demands a dot with at least one
character on each side. -/
def hasInnerDot (l : List Char) : Bool :=
  match l with
  | [] => false
  | _ :: rest => rest.dropLast.contains '.'

/-- `ValidationUtils.validateEmail`: the regex
`/^[^\s@]+@[^\s@]+\.[^\s@]+$/` — exactly one `@`, a nonempty
whitespace-free local part, and a whitespace-free domain containing an
interior dot. -/
def validateEmail (email : String) : Bool :=
  match email.toList.splitOn '@' with
  | [loc, dom] =>
    !loc.isEmpty && loc.all (fun c => !c.isWhitespace) &&
    !dom.isEmpty && dom.all (fun c => !c.isWhitespace) &&
    hasInnerDot dom
  | _ => false

/-- `ValidationUtils.validatePassword` with default `minLength = 6`. -/
def validatePassword (password : String) : Bool :=
  password ≠ "" && password.length ≥ 6

/-- `ValidationUtils.sanitizeEmail`: `jsToLower emailCase().trim()`. -/
def sanitizeEmail (email : String) : String :=
  jsTrim (jsToLower email)

/-! ## Route handlers (`src/routes/user.js`) -/

structure HttpResponse where
  status : Nat
  success : Bool
  message : Option String
deriving Repr, DecidableEq

/-- `POST /reset-password`, OTP-verified variant
(`src/routes/user.js` lines 369–431): field presence → password strength →
`OTPService.verifyOTP(email, otp, 'password_reset')` (consuming) →
`UserService.updatePasswordByEmail`. Returns the response together with the
resulting OTP store and profile store. -/
def resetPasswordOtp (hash : String → String) (otps : List OtpRecord)
    (profiles : List Profile) (email otp newPassword : String) (now : Int) :
    HttpResponse × List OtpRecord × List Profile :=
  if email = "" ∨ otp = "" ∨ newPassword = "" then
    ({ status := 400, success := false,
       message := some "Email, OTP, and new password are required" }, otps, profiles)
  else if !validatePassword newPassword then
    ({ status := 400, success := false,
       message := some "Password must be at least 6 characters long" }, otps, profiles)
  else
    let sanitizedEmail := sanitizeEmail email
    let verification := verifyOTP otps sanitizedEmail otp "password_reset" now
    if verification.1.valid then
      match updatePasswordByEmail hash profiles sanitizedEmail newPassword with
      | (none, profiles2) =>
        ({ status := 404, success := false,
           message := some "User not found or password update failed" },
         verification.2, profiles2)
      | (some _, profiles2) =>
        ({ status := 200, success := true,
           message := some "Password reset successful" }, verification.2, profiles2)
    else
      ({ status := 401, success := false, message := verification.1.message },
       verification.2, profiles)

/-- `POST /reset-password`, no-OTP variant (`src/routes/user.js` lines
722–776): field presence → password strength →
`UserService.updatePasswordByEmail`, with no OTP check of any kind. -/
def resetPasswordNoOtp (hash : String → String) (profiles : List Profile)
    (email newPassword : String) : HttpResponse × List Profile :=
  if email = "" ∨ newPassword = "" then
    ({ status := 400, success := false,
       message := some "Email and new password are required" }, profiles)
  else if !validatePassword newPassword then
    ({ status := 400, success := false,
       message := some "Password must be at least 6 characters long" }, profiles)
  else
    match updatePasswordByEmail hash profiles (sanitizeEmail email) newPassword with
    | (none, profiles2) =>
      ({ status := 404, success := false,
         message := some "User not found or password update failed" }, profiles2)
    | (some _, profiles2) =>
      ({ status := 200, success := true,
         message := some "Password reset successful" }, profiles2)

/-- `POST /request-password-reset` (`src/routes/user.js` lines 258–323):
field/format checks → `findByEmail` (absent ⇒ generic 200) → rate limit →
`generateOTP`/`storeOTP` → send email (`emailSendOk` is the
`EmailService.sendPasswordResetEmail(...).success` outcome). -/
def requestPasswordReset (otps : List OtpRecord) (profiles : List Profile)
    (email freshOtp : String) (freshId : Nat) (now : Int) (emailSendOk : Bool) :
    HttpResponse × List OtpRecord :=
  if email = "" then
    ({ status := 400, success := false, message := some "Email is required" }, otps)
  else if !validateEmail email then
    ({ status := 400, success := false, message := some "Invalid email format" }, otps)
  else
    let sanitizedEmail := sanitizeEmail email
    match findByEmail profiles sanitizedEmail with
    | none =>
      ({ status := 200, success := true,
         message := some "If the email is registered, you will receive a password reset code shortly." },
       otps)
    | some _ =>
      let rateLimit := checkRateLimit otps sanitizedEmail "password_reset" now
      if rateLimit.limited then
        ({ status := 429, success := false,
           message := some "Please wait before requesting another password reset code" },
         otps)
      else
        let otps2 := storeOTP otps sanitizedEmail freshOtp "password_reset" now freshId
        if emailSendOk then
          ({ status := 200, success := true,
             message := some "Password reset code sent to your email" }, otps2)
        else
          ({ status := 500, success := false,
             message := some "Failed to send password reset email" }, otps2)

end SupabaseAuth

/-- Helper: once `markOTPAsUsed` has marked the single row matched by the
`verifyOTP` filter, the same filter matches no row at all: the marked row now
has `used = true` and every other row is unchanged (and was not matching). -/
theorem SupabaseAuth.filter_matchesVerify_after_mark (store : List OtpRecord)
    (email otp purpose : String) (r : OtpRecord)
    (h : store.filter (matchesVerify email otp purpose) = [r]) :
    (markOTPAsUsed store r.id).filter (matchesVerify email otp purpose) = [] := by
  apply List.filter_eq_nil_iff.mpr
  intro s hs
  rcases List.mem_map.mp hs with ⟨t, ht, rfl⟩
  by_cases hid : (t.id == r.id) = true
  · rw [if_pos hid]
    simp [matchesVerify]
  · rw [if_neg hid]
    intro hmatch
    have htf : t ∈ store.filter (matchesVerify email otp purpose) :=
      List.mem_filter.mpr ⟨ht, hmatch⟩
    rw [h, List.mem_singleton] at htf
    subst htf
    simp at hid

/-- Helper: after `markOTPAsUsed store r.id`, every row with id `r.id` has
`used = true`. -/
theorem SupabaseAuth.markOTPAsUsed_marks (store : List OtpRecord) (i : Nat) :
    ∀ s ∈ markOTPAsUsed store i, s.id = i → s.used = true := by
  intro s hs hsid
  rcases List.mem_map.mp hs with ⟨t, _, rfl⟩
  by_cases hid : (t.id == i) = true
  · simp [hid]
  · rw [if_neg hid] at hsid ⊢
    exact absurd hsid (by simpa using hid)

/-- Helper: a verification whose filter matches no row answers
"Invalid OTP code" and leaves the store untouched — a failed attempt
therefore repeats identically forever. -/
theorem SupabaseAuth.verifyOTP_nomatch_fixpoint (store : List OtpRecord)
    (email otp purpose : String) (now : Int)
    (h : store.filter (matchesVerify email otp purpose) = []) :
    verifyOTP store email otp purpose now
      = ({ valid := false, message := some "Invalid OTP code" }, store) := by
  simp [verifyOTP, verifySelect, selectSingle, h, verifyFinish]

/-- **C2**: a consuming verification against a slot holding exactly one live,
unexpired record with the matching code returns `valid = true` and marks that
record used; any subsequent consuming verification with the same code against
the same slot (at any later clock reading) returns `valid = false` — the
record never returns to the unused state through verification. -/
theorem SupabaseAuth.verifyOTP_consume_exactly_once (store : List OtpRecord)
    (email otp purpose : String) (now now2 : Int) (r : OtpRecord)
    (hone : store.filter (matchesVerify email otp purpose) = [r])
    (hlive : ¬ now > r.expires_at) :
    (verifyOTP store email otp purpose now).1.valid = true ∧
    (∀ s ∈ (verifyOTP store email otp purpose now).2, s.id = r.id → s.used = true) ∧
    (verifyOTP (verifyOTP store email otp purpose now).2 email otp purpose now2).1.valid
      = false ∧
    (verifyOTP (verifyOTP store email otp purpose now).2 email otp purpose now2).2
      = (verifyOTP store email otp purpose now).2 := by
  have hsel : verifySelect store email otp purpose = some r := by
    simp [verifySelect, selectSingle, hone]
  have hfin : verifyOTP store email otp purpose now =
      ({ valid := true, message := none }, markOTPAsUsed store r.id) := by
    simp [verifyOTP, hsel, verifyFinish, hlive]
  have hnil := filter_matchesVerify_after_mark store email otp purpose r hone
  have hfix := verifyOTP_nomatch_fixpoint (markOTPAsUsed store r.id) email otp purpose
    now2 hnil
  refine ⟨by rw [hfin], ?_, ?_, ?_⟩
  · rw [hfin]
    exact markOTPAsUsed_marks store r.id
  · rw [hfin, hfix]
  · rw [hfin, hfix]

/-- Witness for C2: a concrete one-record store; the first consuming
verification succeeds, the second fails. -/
theorem SupabaseAuth.verifyOTP_consume_exactly_once_witness :
    ([⟨1, "alice@test.com", "123456", "signin", 600000, 0, false⟩] :
        List SupabaseAuth.OtpRecord).filter
      (SupabaseAuth.matchesVerify "alice@test.com" "123456" "signin") =
      [⟨1, "alice@test.com", "123456", "signin", 600000, 0, false⟩] ∧
    ¬ (500 : Int) > (600000 : Int) ∧
    ((SupabaseAuth.verifyOTP [⟨1, "alice@test.com", "123456", "signin", 600000, 0, false⟩]
        "alice@test.com" "123456" "signin" 500).1.valid = true ∧
      (∀ s ∈ (SupabaseAuth.verifyOTP
          [⟨1, "alice@test.com", "123456", "signin", 600000, 0, false⟩]
          "alice@test.com" "123456" "signin" 500).2, s.id = 1 → s.used = true) ∧
      (SupabaseAuth.verifyOTP (SupabaseAuth.verifyOTP
          [⟨1, "alice@test.com", "123456", "signin", 600000, 0, false⟩]
          "alice@test.com" "123456" "signin" 500).2
          "alice@test.com" "123456" "signin" 700).1.valid = false ∧
      (SupabaseAuth.verifyOTP (SupabaseAuth.verifyOTP
          [⟨1, "alice@test.com", "123456", "signin", 600000, 0, false⟩]
          "alice@test.com" "123456" "signin" 500).2
          "alice@test.com" "123456" "signin" 700).2
        = (SupabaseAuth.verifyOTP
            [⟨1, "alice@test.com", "123456", "signin", 600000, 0, false⟩]
            "alice@test.com" "123456" "signin" 500).2) :=
  ⟨by decide, by decide,
    SupabaseAuth.verifyOTP_consume_exactly_once
      [⟨1, "alice@test.com", "123456", "signin", 600000, 0, false⟩]
      "alice@test.com" "123456" "signin" 500 700
      ⟨1, "alice@test.com", "123456", "signin", 600000, 0, false⟩
      (by decide) (by decide)⟩

/-- **C10**: for every invocation (every random draw `r ∈ [0,1)`),
`generateOTP` returns a value in `[100000, 999999]`; its decimal
representation therefore has exactly 6 digits and no leading zero
(the leading digit of any number's decimal digit string is nonzero). -/
theorem SupabaseAuth.generateOTP_six_digits (r : ℚ) (h0 : 0 ≤ r) (h1 : r < 1) :
    100000 ≤ generateOTP r ∧ generateOTP r ≤ 999999 ∧
    (Nat.digits 10 (generateOTP r)).length = 6 := by
  have hlo : (100000 : ℤ) ≤ Int.floor (100000 + r * 900000) := by
    have : (100000 : ℚ) ≤ 100000 + r * 900000 := by nlinarith
    calc (100000 : ℤ) = Int.floor (100000 : ℚ) := by norm_num
    _ ≤ Int.floor (100000 + r * 900000) := Int.floor_le_floor this
  have hhi : Int.floor (100000 + r * 900000) < (1000000 : ℤ) := by
    have hq : (100000 : ℚ) + r * 900000 < 1000000 := by nlinarith
    exact Int.floor_lt.mpr (by exact_mod_cast hq)
  have hlo' : 100000 ≤ generateOTP r := by
    unfold generateOTP; omega
  have hhi' : generateOTP r ≤ 999999 := by
    unfold generateOTP; omega
  refine ⟨hlo', hhi', ?_⟩
  have hne : generateOTP r ≠ 0 := by omega
  rw [Nat.digits_len 10 _ (by norm_num) hne]
  have hlog : Nat.log 10 (generateOTP r) = 5 := by
    apply Nat.log_eq_of_pow_le_of_lt_pow
    · simpa using hlo'
    · have : generateOTP r < 1000000 := by omega
      simpa using this
  omega

/-- Witness for C10 at the concrete draw `r = 1/2`: the generated code is
`550000`, inside the stated range with a 6-digit representation. -/
theorem SupabaseAuth.generateOTP_six_digits_witness :
    (0 : ℚ) ≤ 1/2 ∧
    (100000 ≤ SupabaseAuth.generateOTP (1/2) ∧
      SupabaseAuth.generateOTP (1/2) ≤ 999999 ∧
      (Nat.digits 10 (SupabaseAuth.generateOTP (1/2))).length = 6) :=
  ⟨by norm_num, SupabaseAuth.generateOTP_six_digits (1/2) (by norm_num) (by norm_num)⟩

/-- **C6 counterexample**: the claim says every verification attempt against
an expired record with the matching code reports "expired", including
repeated attempts with the same stale code. Concretely (record expired at
1000, clock at 2000): the first attempt reports "expired" and marks the row
used, but the repeat attempt reports "Invalid OTP code" — reason "invalid",
not "expired" — because the now-used row no longer matches the filter. -/
theorem SupabaseAuth.verifyOTP_expired_repeat_counterexample :
    (SupabaseAuth.verifyOTP [⟨1, "alice@test.com", "123456", "signin", 1000, 0, false⟩]
        "alice@test.com" "123456" "signin" 2000).1.message
      = some "OTP code has expired" ∧
    (SupabaseAuth.verifyOTP
        (SupabaseAuth.verifyOTP [⟨1, "alice@test.com", "123456", "signin", 1000, 0, false⟩]
          "alice@test.com" "123456" "signin" 2000).2
        "alice@test.com" "123456" "signin" 2000).1.message
      = some "Invalid OTP code" := by decide

/-- **C6 amended**: against a slot holding exactly one live record whose
`expires_at` is in the past, the FIRST verification attempt with the matching
code returns `valid = false` with reason "expired" and marks the record used;
every SUBSEQUENT attempt with the same stale code returns `valid = false`
with reason "invalid" (the used record no longer matches the lookup). -/
theorem SupabaseAuth.verifyOTP_expired_first_then_invalid (store : List OtpRecord)
    (email otp purpose : String) (now now2 : Int) (r : OtpRecord)
    (hone : store.filter (matchesVerify email otp purpose) = [r])
    (hexp : now > r.expires_at) :
    (verifyOTP store email otp purpose now).1
      = { valid := false, message := some "OTP code has expired" } ∧
    (∀ s ∈ (verifyOTP store email otp purpose now).2, s.id = r.id → s.used = true) ∧
    (verifyOTP (verifyOTP store email otp purpose now).2 email otp purpose now2).1
      = { valid := false, message := some "Invalid OTP code" } ∧
    (verifyOTP (verifyOTP store email otp purpose now).2 email otp purpose now2).2
      = (verifyOTP store email otp purpose now).2 := by
  have hsel : verifySelect store email otp purpose = some r := by
    simp [verifySelect, selectSingle, hone]
  have hfin : verifyOTP store email otp purpose now =
      ({ valid := false, message := some "OTP code has expired" },
        markOTPAsUsed store r.id) := by
    simp [verifyOTP, hsel, verifyFinish, hexp]
  have hnil := filter_matchesVerify_after_mark store email otp purpose r hone
  have hfix := verifyOTP_nomatch_fixpoint (markOTPAsUsed store r.id) email otp purpose
    now2 hnil
  refine ⟨by rw [hfin], ?_, ?_, ?_⟩
  · rw [hfin]
    exact markOTPAsUsed_marks store r.id
  · rw [hfin, hfix]
  · rw [hfin, hfix]

/-- Witness for the amended C6 at a concrete store and clock. -/
theorem SupabaseAuth.verifyOTP_expired_first_then_invalid_witness :
    ([⟨1, "alice@test.com", "123456", "signin", 1000, 0, false⟩] :
        List SupabaseAuth.OtpRecord).filter
      (SupabaseAuth.matchesVerify "alice@test.com" "123456" "signin") =
      [⟨1, "alice@test.com", "123456", "signin", 1000, 0, false⟩] ∧
    (2000 : Int) > (1000 : Int) ∧
    ((SupabaseAuth.verifyOTP [⟨1, "alice@test.com", "123456", "signin", 1000, 0, false⟩]
        "alice@test.com" "123456" "signin" 2000).1
      = { valid := false, message := some "OTP code has expired" } ∧
     (∀ s ∈ (SupabaseAuth.verifyOTP
          [⟨1, "alice@test.com", "123456", "signin", 1000, 0, false⟩]
          "alice@test.com" "123456" "signin" 2000).2, s.id = 1 → s.used = true) ∧
     (SupabaseAuth.verifyOTP (SupabaseAuth.verifyOTP
          [⟨1, "alice@test.com", "123456", "signin", 1000, 0, false⟩]
          "alice@test.com" "123456" "signin" 2000).2
          "alice@test.com" "123456" "signin" 3000).1
      = { valid := false, message := some "Invalid OTP code" } ∧
     (SupabaseAuth.verifyOTP (SupabaseAuth.verifyOTP
          [⟨1, "alice@test.com", "123456", "signin", 1000, 0, false⟩]
          "alice@test.com" "123456" "signin" 2000).2
          "alice@test.com" "123456" "signin" 3000).2
      = (SupabaseAuth.verifyOTP
          [⟨1, "alice@test.com", "123456", "signin", 1000, 0, false⟩]
          "alice@test.com" "123456" "signin" 2000).2) :=
  ⟨by decide, by decide,
    SupabaseAuth.verifyOTP_expired_first_then_invalid
      [⟨1, "alice@test.com", "123456", "signin", 1000, 0, false⟩]
      "alice@test.com" "123456" "signin" 2000 3000
      ⟨1, "alice@test.com", "123456", "signin", 1000, 0, false⟩
      (by decide) (by decide)⟩

/-- **C3 counterexample**: the claim says the match-and-mark step is one
atomic conditional update guarded by `used = false`, so that under EVERY
interleaving exactly one of two concurrent attempts succeeds. In the source
the step is two separate store operations (an unguarded `single()` select,
then an unconditional `update({used: true}).eq('id', ...)`). Under the
interleaving read-A, read-B, mark-A, mark-B on a concrete one-record store,
BOTH attempts observe `valid = true`. -/
theorem SupabaseAuth.verifyOTP_race_counterexample :
    (SupabaseAuth.raceBothReadFirst
        [⟨1, "alice@test.com", "123456", "signin", 600000, 0, false⟩]
        "alice@test.com" "123456" "signin" 500 600).1.1.valid = true ∧
    (SupabaseAuth.raceBothReadFirst
        [⟨1, "alice@test.com", "123456", "signin", 600000, 0, false⟩]
        "alice@test.com" "123456" "signin" 500 600).1.2.valid = true := by decide

/-- **C3 amended**: the match-and-mark step of `verifyOTP` is NOT atomic: it
is a `single()` select followed by a separate unconditional update keyed on
`id` with no `used = false` guard. Consequently, whenever a slot holds
exactly one live unexpired record with the matching code, the interleaving in
which both attempts read before either writes makes BOTH concurrent
consuming attempts observe `valid = true` (double redemption). -/
theorem SupabaseAuth.raceBothReadFirst_double_success (store : List OtpRecord)
    (email otp purpose : String) (nowA nowB : Int) (r : OtpRecord)
    (hone : store.filter (matchesVerify email otp purpose) = [r])
    (hliveA : ¬ nowA > r.expires_at) (hliveB : ¬ nowB > r.expires_at) :
    (raceBothReadFirst store email otp purpose nowA nowB).1.1.valid = true ∧
    (raceBothReadFirst store email otp purpose nowA nowB).1.2.valid = true := by
  have hsel : verifySelect store email otp purpose = some r := by
    simp [verifySelect, selectSingle, hone]
  constructor
  · simp [raceBothReadFirst, hsel, verifyFinish, hliveA]
  · simp [raceBothReadFirst, hsel, verifyFinish, hliveA, hliveB]

/-- Witness for the amended C3 at a concrete store and pair of clocks. -/
theorem SupabaseAuth.raceBothReadFirst_double_success_witness :
    ([⟨1, "alice@test.com", "123456", "signin", 600000, 0, false⟩] :
        List SupabaseAuth.OtpRecord).filter
      (SupabaseAuth.matchesVerify "alice@test.com" "123456" "signin") =
      [⟨1, "alice@test.com", "123456", "signin", 600000, 0, false⟩] ∧
    ¬ (500 : Int) > (600000 : Int) ∧ ¬ (600 : Int) > (600000 : Int) ∧
    ((SupabaseAuth.raceBothReadFirst
        [⟨1, "alice@test.com", "123456", "signin", 600000, 0, false⟩]
        "alice@test.com" "123456" "signin" 500 600).1.1.valid = true ∧
     (SupabaseAuth.raceBothReadFirst
        [⟨1, "alice@test.com", "123456", "signin", 600000, 0, false⟩]
        "alice@test.com" "123456" "signin" 500 600).1.2.valid = true) :=
  ⟨by decide, by decide, by decide,
    SupabaseAuth.raceBothReadFirst_double_success
      [⟨1, "alice@test.com", "123456", "signin", 600000, 0, false⟩]
      "alice@test.com" "123456" "signin" 500 600
      ⟨1, "alice@test.com", "123456", "signin", 600000, 0, false⟩
      (by decide) (by decide) (by decide)⟩

/-- **C4 counterexample**: the claim says the persisted record contains only
the hash of the code and that no reachable store state contains a plaintext
OTP code at rest. After a single issuance from the empty store, the store
holds a row whose `otp_code` column IS the plaintext code (`storeOTP` has no
hash field at all). -/
theorem SupabaseAuth.storeOTP_plaintext_counterexample :
    (SupabaseAuth.storeOTP [] "alice@test.com" "123456" "signin" 0 1).any
      (fun r => r.otp_code == "123456") = true := by decide

/-- **C4 amended**: every issuance persists the plaintext code at rest: after
`storeOTP`, every row for the issuing email carries `otp_code = otp` (the
plaintext); and even the bcrypt-hash variant of `routes/test.js`, which adds
an `otp_hash` column, still persists the plaintext `otp_code` alongside it. -/
theorem SupabaseAuth.storeOTP_persists_plaintext (store : List OtpRecord)
    (email otp purpose : String) (now : Int) (freshId : Nat) :
    (∀ r ∈ storeOTP store email otp purpose now freshId,
        r.email = jsToLower email → r.otp_code = otp) ∧
    (∀ (bhash : String → String) (storeH : List OtpRecordH),
      ∀ r ∈ storeOTPHashed bhash storeH email otp purpose now freshId,
        r.email = jsToLower email → r.purpose = purpose → r.otp_code = otp) := by
  constructor
  · intro r hr hre
    unfold storeOTP at hr
    by_cases hc : store.any (fun s => s.email == jsToLower email) = true
    · rw [if_pos hc] at hr
      rcases List.mem_map.mp hr with ⟨t, _, rfl⟩
      by_cases hte : (t.email == jsToLower email) = true
      · rw [if_pos hte]
      · rw [if_neg hte] at hre ⊢
        exact absurd hre (by simpa using hte)
    · rw [if_neg hc] at hr
      rcases List.mem_append.mp hr with hr | hr
      · rw [List.any_eq_true] at hc
        push_neg at hc
        exact absurd (by simpa using hre) (by simpa using hc r hr)
      · rw [List.mem_singleton] at hr
        subst hr
        rfl
  · intro bhash storeH r hr hre hrp
    unfold storeOTPHashed at hr
    by_cases hc : storeH.any (fun s => s.email == jsToLower email && s.purpose == purpose)
        = true
    · rw [if_pos hc] at hr
      rcases List.mem_map.mp hr with ⟨t, _, rfl⟩
      by_cases hte : (t.email == jsToLower email && t.purpose == purpose) = true
      · rw [if_pos hte]
      · rw [if_neg hte] at hre hrp ⊢
        exact absurd (show (t.email == jsToLower email && t.purpose == purpose) = true by
          simp [hre, hrp]) hte
    · rw [if_neg hc] at hr
      rcases List.mem_append.mp hr with hr | hr
      · rw [List.any_eq_true] at hc
        push_neg at hc
        exact absurd (show (r.email == jsToLower email && r.purpose == purpose) = true by
          simp [hre, hrp]) (hc r hr)
      · rw [List.mem_singleton] at hr
        subst hr
        rfl

/-- Witness for the amended C4 at a concrete issuance over the empty store
(both the plain variant and the bcrypt variant with a concrete stand-in
hash). -/
theorem SupabaseAuth.storeOTP_persists_plaintext_witness :
    (∀ r ∈ SupabaseAuth.storeOTP [] "alice@test.com" "123456" "signin" 0 1,
        r.email = SupabaseAuth.jsToLower "alice@test.com" → r.otp_code = "123456") ∧
    (∀ (bhash : String → String) (storeH : List SupabaseAuth.OtpRecordH),
      ∀ r ∈ SupabaseAuth.storeOTPHashed bhash storeH "alice@test.com" "123456" "signin" 0 1,
        r.email = SupabaseAuth.jsToLower "alice@test.com" → r.purpose = "signin" →
          r.otp_code = "123456") :=
  SupabaseAuth.storeOTP_persists_plaintext [] "alice@test.com" "123456" "signin" 0 1

/-- **C5 counterexample**: the claim says issuance replaces only the record
keyed on the composite (email, purpose), leaving a same-email record with a
different purpose unchanged. Concretely, with one live `signin` record for
alice, issuing a `password_reset` OTP for alice destroys the `signin`
record: the store afterwards holds NO record with purpose `signin` (the
upsert of `src/services/otpService.js` conflicts on `email` alone). -/
theorem SupabaseAuth.storeOTP_purpose_frame_counterexample :
    ([⟨1, "alice@test.com", "111111", "signin", 600000, 0, false⟩] :
        List SupabaseAuth.OtpRecord).any (fun r => r.purpose == "signin") = true ∧
    (SupabaseAuth.storeOTP [⟨1, "alice@test.com", "111111", "signin", 600000, 0, false⟩]
        "alice@test.com" "222222" "password_reset" 1000 2).any
      (fun r => r.purpose == "signin") = false := by decide

/-- **C5 amended**: `storeOTP` upserts with conflict target `email` ALONE:
records of other emails are left unchanged, but EVERY existing record for the
issuing email — whatever its purpose — is overwritten with the new code,
purpose, timestamps and `used = false`; signin and password_reset are
therefore a single shared slot per email, not independent slots. -/
theorem SupabaseAuth.storeOTP_keyed_on_email_alone (store : List OtpRecord)
    (email otp purpose : String) (now : Int) (freshId : Nat) :
    (∀ r ∈ store, r.email ≠ jsToLower email →
        r ∈ storeOTP store email otp purpose now freshId) ∧
    (∀ r ∈ store, r.email = jsToLower email →
        { r with otp_code := otp, purpose := purpose,
                 expires_at := now + OTP_EXPIRY_MINUTES * 60 * 1000,
                 created_at := now, used := false }
          ∈ storeOTP store email otp purpose now freshId) := by
  constructor
  · intro r hr hne
    unfold storeOTP
    by_cases hc : store.any (fun s => s.email == jsToLower email) = true
    · rw [if_pos hc]
      exact List.mem_map.mpr ⟨r, hr, by simp [hne]⟩
    · rw [if_neg hc]
      exact List.mem_append_left _ hr
  · intro r hr he
    unfold storeOTP
    have hc : store.any (fun s => s.email == jsToLower email) = true :=
      List.any_eq_true.mpr ⟨r, hr, by simpa using he⟩
    rw [if_pos hc]
    exact List.mem_map.mpr ⟨r, hr, by simp [he]⟩

/-- Witness for the amended C5: on a store holding alice's `signin` record
and bob's record, a `password_reset` issuance for alice keeps bob's record
and overwrites alice's record — purpose included. -/
theorem SupabaseAuth.storeOTP_keyed_on_email_alone_witness :
    (∀ r ∈ ([⟨1, "alice@test.com", "111111", "signin", 600000, 0, false⟩,
             ⟨2, "bob@test.com", "333333", "signin", 600000, 0, false⟩] :
        List SupabaseAuth.OtpRecord),
      r.email ≠ SupabaseAuth.jsToLower "alice@test.com" →
        r ∈ SupabaseAuth.storeOTP
          [⟨1, "alice@test.com", "111111", "signin", 600000, 0, false⟩,
           ⟨2, "bob@test.com", "333333", "signin", 600000, 0, false⟩]
          "alice@test.com" "222222" "password_reset" 1000 3) ∧
    (∀ r ∈ ([⟨1, "alice@test.com", "111111", "signin", 600000, 0, false⟩,
             ⟨2, "bob@test.com", "333333", "signin", 600000, 0, false⟩] :
        List SupabaseAuth.OtpRecord),
      r.email = SupabaseAuth.jsToLower "alice@test.com" →
        { r with otp_code := "222222", purpose := "password_reset",
                 expires_at := 1000 + SupabaseAuth.OTP_EXPIRY_MINUTES * 60 * 1000,
                 created_at := 1000, used := false }
          ∈ SupabaseAuth.storeOTP
            [⟨1, "alice@test.com", "111111", "signin", 600000, 0, false⟩,
             ⟨2, "bob@test.com", "333333", "signin", 600000, 0, false⟩]
            "alice@test.com" "222222" "password_reset" 1000 3) :=
  SupabaseAuth.storeOTP_keyed_on_email_alone
    [⟨1, "alice@test.com", "111111", "signin", 600000, 0, false⟩,
     ⟨2, "bob@test.com", "333333", "signin", 600000, 0, false⟩]
    "alice@test.com" "222222" "password_reset" 1000 3

/-- **C8**: `checkRateLimit` reports `limited = true` exactly when fewer than
60 seconds (60000 ms) have elapsed since the most recent issuance for
(email, purpose); in that case `retryAfter` is the integer `q` with
`1000·(q−1) < 60000 − elapsedMs ≤ 1000·q` — that is,
`q = ceil((60000 − elapsedMs)/1000)` — and `q ≤ 60`. With no prior issuance,
or 60 or more seconds elapsed, it reports `limited = false`. -/
theorem SupabaseAuth.checkRateLimit_spec (store : List OtpRecord)
    (email purpose : String) (now : Int) :
    (mostRecent store email purpose = none →
      checkRateLimit store email purpose now = { limited := false, retryAfter := none }) ∧
    (∀ r : OtpRecord, mostRecent store email purpose = some r →
      0 ≤ now - r.created_at →
        ((checkRateLimit store email purpose now).limited = true ↔
          now - r.created_at < 60000) ∧
        (now - r.created_at < 60000 →
          ∃ q : ℕ, (checkRateLimit store email purpose now).retryAfter = some q ∧
            60000 - (now - r.created_at) ≤ 1000 * (q : Int) ∧
            1000 * ((q : Int) - 1) < 60000 - (now - r.created_at) ∧
            q ≤ 60) ∧
        (60000 ≤ now - r.created_at →
          checkRateLimit store email purpose now
            = { limited := false, retryAfter := none })) := by
  constructor
  · intro hnone
    simp [checkRateLimit, hnone]
  · intro r hr h0
    have hRL : RATE_LIMIT_MS = 60000 := by norm_num [RATE_LIMIT_MS]
    by_cases hlt : now - r.created_at < 60000
    · have hcr : checkRateLimit store email purpose now =
          { limited := true,
            retryAfter := some (((60000 - (now - r.created_at)).toNat + 999) / 1000) } := by
        simp only [checkRateLimit, hr, hRL]
        rw [if_pos hlt]
      refine ⟨by simp [hcr, hlt], ?_, ?_⟩
      · intro _
        refine ⟨((60000 - (now - r.created_at)).toNat + 999) / 1000, by simp [hcr], ?_, ?_, ?_⟩
        · have h1 := Nat.div_add_mod ((60000 - (now - r.created_at)).toNat + 999) 1000
          have h2 := Nat.mod_lt ((60000 - (now - r.created_at)).toNat + 999)
            (show 0 < 1000 by norm_num)
          omega
        · have h1 := Nat.div_add_mod ((60000 - (now - r.created_at)).toNat + 999) 1000
          have h2 := Nat.mod_lt ((60000 - (now - r.created_at)).toNat + 999)
            (show 0 < 1000 by norm_num)
          omega
        · have h1 := Nat.div_add_mod ((60000 - (now - r.created_at)).toNat + 999) 1000
          have h2 := Nat.mod_lt ((60000 - (now - r.created_at)).toNat + 999)
            (show 0 < 1000 by norm_num)
          omega
      · intro hge
        omega
    · have hcr : checkRateLimit store email purpose now =
          { limited := false, retryAfter := none } := by
        simp only [checkRateLimit, hr, hRL]
        rw [if_neg hlt]
      refine ⟨by simp [hcr]; omega, ?_, fun _ => hcr⟩
      intro h
      exact absurd h hlt

/-- Witness for C8 at a concrete store: one issuance at t = 570000 ms,
checked at t = 600000 ms (30 s elapsed): limited with `retryAfter = 30`. -/
theorem SupabaseAuth.checkRateLimit_spec_witness :
    SupabaseAuth.mostRecent [⟨1, "alice@test.com", "111111", "signin", 1170000, 570000, false⟩]
        "alice@test.com" "signin"
      = some ⟨1, "alice@test.com", "111111", "signin", 1170000, 570000, false⟩ ∧
    (0 : Int) ≤ 600000 - 570000 ∧
    (((SupabaseAuth.checkRateLimit
        [⟨1, "alice@test.com", "111111", "signin", 1170000, 570000, false⟩]
        "alice@test.com" "signin" 600000).limited = true ↔
          (600000 : Int) - 570000 < 60000) ∧
      ((600000 : Int) - 570000 < 60000 →
        ∃ q : ℕ, (SupabaseAuth.checkRateLimit
            [⟨1, "alice@test.com", "111111", "signin", 1170000, 570000, false⟩]
            "alice@test.com" "signin" 600000).retryAfter = some q ∧
          60000 - ((600000 : Int) - 570000) ≤ 1000 * (q : Int) ∧
          1000 * ((q : Int) - 1) < 60000 - ((600000 : Int) - 570000) ∧
          q ≤ 60) ∧
      ((60000 : Int) ≤ 600000 - 570000 →
        SupabaseAuth.checkRateLimit
            [⟨1, "alice@test.com", "111111", "signin", 1170000, 570000, false⟩]
            "alice@test.com" "signin" 600000
          = { limited := false, retryAfter := none })) :=
  ⟨by decide, by decide,
    (SupabaseAuth.checkRateLimit_spec
      [⟨1, "alice@test.com", "111111", "signin", 1170000, 570000, false⟩]
      "alice@test.com" "signin" 600000).2
      ⟨1, "alice@test.com", "111111", "signin", 1170000, 570000, false⟩
      (by decide) (by decide)⟩

/-- Helper: the store component returned by `updatePasswordByEmail` is the
map that rewrites `password_hash` on every row with the matching email,
whichever branch the `data[0]` lookup takes. -/
theorem SupabaseAuth.updatePasswordByEmail_snd (hash : String → String)
    (profiles : List Profile) (email newPassword : String) :
    (updatePasswordByEmail hash profiles email newPassword).2
      = profiles.map (fun p =>
          if p.email == jsToLower email then
            { p with password_hash := some (hash newPassword) }
          else p) := by
  unfold updatePasswordByEmail
  dsimp only
  split <;> rfl

/-- Helper: after `updatePasswordByEmail`, every row with the matching email
holds the new hash. -/
theorem SupabaseAuth.updatePasswordByEmail_sets_hash (hash : String → String)
    (profiles : List Profile) (email newPassword : String) :
    ∀ p ∈ (updatePasswordByEmail hash profiles email newPassword).2,
      p.email = jsToLower email → p.password_hash = some (hash newPassword) := by
  rw [updatePasswordByEmail_snd]
  intro p hp hpe
  rcases List.mem_map.mp hp with ⟨t, _, rfl⟩
  by_cases hte : (t.email == jsToLower email) = true
  · rw [if_pos hte]
  · rw [if_neg hte] at hpe ⊢
    exact absurd hpe (by simpa using hte)

/-- **C1 counterexample**: the claim says EVERY password-reset request
updates the password only after a `password_reset` OTP is verified, failing
with 401 and an unchanged `password_hash` when the OTP is absent. The no-OTP
`/reset-password` variant (`src/routes/user.js` lines 722–776) takes a bare
email+newPassword request — no OTP exists anywhere — and still answers 200
with the password hash replaced. -/
theorem SupabaseAuth.resetPasswordNoOtp_counterexample :
    (SupabaseAuth.resetPasswordNoOtp (fun s => s ++ "-bcrypt")
        [⟨1, "alice@test.com", some "oldhash"⟩] "alice@test.com" "newpass123").1.status
      = 200 ∧
    (SupabaseAuth.resetPasswordNoOtp (fun s => s ++ "-bcrypt")
        [⟨1, "alice@test.com", some "oldhash"⟩] "alice@test.com" "newpass123").2
      = [⟨1, "alice@test.com", some "newpass123-bcrypt"⟩] := by decide

/-- **C1 amended**: the OTP-verified `/reset-password` variant
(`src/routes/user.js` lines 369–431) does enforce the claim: with well-formed
inputs, when the consuming `verifyOTP(email, otp, 'password_reset')` fails
the handler answers 401 and the profile store (hence every `password_hash`)
is unchanged; when it succeeds, the OTP record is consumed and every profile
row for the email carries the new hash. The repository however also ships a
no-OTP `/reset-password` variant (lines 722–776) that updates the password
with no OTP check at all. -/
theorem SupabaseAuth.resetPasswordOtp_gate (hash : String → String)
    (otps : List OtpRecord) (profiles : List Profile)
    (email otp newPassword : String) (now : Int)
    (he : email ≠ "") (ho : otp ≠ "") (hp : validatePassword newPassword = true) :
    ((verifyOTP otps (sanitizeEmail email) otp "password_reset" now).1.valid = false →
      (resetPasswordOtp hash otps profiles email otp newPassword now).1.status = 401 ∧
      (resetPasswordOtp hash otps profiles email otp newPassword now).2.2 = profiles) ∧
    ((verifyOTP otps (sanitizeEmail email) otp "password_reset" now).1.valid = true →
      (resetPasswordOtp hash otps profiles email otp newPassword now).2.1
        = (verifyOTP otps (sanitizeEmail email) otp "password_reset" now).2 ∧
      ∀ p ∈ (resetPasswordOtp hash otps profiles email otp newPassword now).2.2,
        p.email = jsToLower (sanitizeEmail email) →
          p.password_hash = some (hash newPassword)) := by
  have hnp : newPassword ≠ "" := by
    simp [validatePassword] at hp
    exact hp.1
  have hstep : resetPasswordOtp hash otps profiles email otp newPassword now =
      (if (verifyOTP otps (sanitizeEmail email) otp "password_reset" now).1.valid then
        match updatePasswordByEmail hash profiles (sanitizeEmail email) newPassword with
        | (none, profiles2) =>
          ({ status := 404, success := false,
             message := some "User not found or password update failed" },
           (verifyOTP otps (sanitizeEmail email) otp "password_reset" now).2, profiles2)
        | (some _, profiles2) =>
          ({ status := 200, success := true,
             message := some "Password reset successful" },
           (verifyOTP otps (sanitizeEmail email) otp "password_reset" now).2, profiles2)
      else
        ({ status := 401, success := false,
           message := (verifyOTP otps (sanitizeEmail email) otp "password_reset" now).1.message },
         (verifyOTP otps (sanitizeEmail email) otp "password_reset" now).2, profiles)) := by
    unfold resetPasswordOtp
    rw [if_neg (by simp [he, ho, hnp]), if_neg (by simp [hp])]
  constructor
  · intro hv
    rw [hstep, if_neg (by simp [hv])]
    exact ⟨rfl, rfl⟩
  · intro hv
    rw [hstep, if_pos hv]
    rcases hupd : updatePasswordByEmail hash profiles (sanitizeEmail email) newPassword
      with ⟨opt, profiles2⟩
    have hset := updatePasswordByEmail_sets_hash hash profiles (sanitizeEmail email)
      newPassword
    rw [hupd] at hset
    cases opt with
    | none => exact ⟨rfl, hset⟩
    | some u => exact ⟨rfl, hset⟩

/-- Witness for the amended C1: a concrete live `password_reset` OTP for
alice; with the right code the handler answers via the consuming
verification, and alice's row afterwards carries the new hash. -/
theorem SupabaseAuth.resetPasswordOtp_gate_witness :
    "alice@test.com" ≠ "" ∧ "123456" ≠ "" ∧
    SupabaseAuth.validatePassword "newpass123" = true ∧
    (((SupabaseAuth.verifyOTP [⟨1, "alice@test.com", "123456", "password_reset", 600000, 0, false⟩]
        (SupabaseAuth.sanitizeEmail "alice@test.com") "123456" "password_reset" 500).1.valid
        = false →
      (SupabaseAuth.resetPasswordOtp (fun s => s ++ "-bcrypt")
          [⟨1, "alice@test.com", "123456", "password_reset", 600000, 0, false⟩]
          [⟨1, "alice@test.com", some "oldhash"⟩]
          "alice@test.com" "123456" "newpass123" 500).1.status = 401 ∧
      (SupabaseAuth.resetPasswordOtp (fun s => s ++ "-bcrypt")
          [⟨1, "alice@test.com", "123456", "password_reset", 600000, 0, false⟩]
          [⟨1, "alice@test.com", some "oldhash"⟩]
          "alice@test.com" "123456" "newpass123" 500).2.2
        = [⟨1, "alice@test.com", some "oldhash"⟩]) ∧
    ((SupabaseAuth.verifyOTP [⟨1, "alice@test.com", "123456", "password_reset", 600000, 0, false⟩]
        (SupabaseAuth.sanitizeEmail "alice@test.com") "123456" "password_reset" 500).1.valid
        = true →
      (SupabaseAuth.resetPasswordOtp (fun s => s ++ "-bcrypt")
          [⟨1, "alice@test.com", "123456", "password_reset", 600000, 0, false⟩]
          [⟨1, "alice@test.com", some "oldhash"⟩]
          "alice@test.com" "123456" "newpass123" 500).2.1
        = (SupabaseAuth.verifyOTP
            [⟨1, "alice@test.com", "123456", "password_reset", 600000, 0, false⟩]
            (SupabaseAuth.sanitizeEmail "alice@test.com") "123456" "password_reset" 500).2 ∧
      ∀ p ∈ (SupabaseAuth.resetPasswordOtp (fun s => s ++ "-bcrypt")
          [⟨1, "alice@test.com", "123456", "password_reset", 600000, 0, false⟩]
          [⟨1, "alice@test.com", some "oldhash"⟩]
          "alice@test.com" "123456" "newpass123" 500).2.2,
        p.email = SupabaseAuth.jsToLower (SupabaseAuth.sanitizeEmail "alice@test.com") →
          p.password_hash = some ((fun s => s ++ "-bcrypt") "newpass123"))) :=
  ⟨by decide, by decide, by decide,
    SupabaseAuth.resetPasswordOtp_gate (fun s => s ++ "-bcrypt")
      [⟨1, "alice@test.com", "123456", "password_reset", 600000, 0, false⟩]
      [⟨1, "alice@test.com", some "oldhash"⟩]
      "alice@test.com" "123456" "newpass123" 500
      (by decide) (by decide) (by decide)⟩

/-- **C7 counterexample**: the claim says two password-reset requests
differing only in account existence produce indistinguishable responses.
Concretely (same OTP store, same clock, same draw, email delivery
succeeding): with no account the response body says "If the email is
registered, you will receive a password reset code shortly."; with an
account it says "Password reset code sent to your email" — the two
responses differ, so account existence is observable. -/
theorem SupabaseAuth.requestPasswordReset_enumeration_counterexample :
    (SupabaseAuth.requestPasswordReset [] [] "alice@test.com" "123456" 1 0 true).1.message
      = some "If the email is registered, you will receive a password reset code shortly." ∧
    (SupabaseAuth.requestPasswordReset [] [⟨1, "alice@test.com", some "h"⟩]
        "alice@test.com" "123456" 1 0 true).1.message
      = some "Password reset code sent to your email" ∧
    (SupabaseAuth.requestPasswordReset [] [] "alice@test.com" "123456" 1 0 true).1
      ≠ (SupabaseAuth.requestPasswordReset [] [⟨1, "alice@test.com", some "h"⟩]
          "alice@test.com" "123456" 1 0 true).1 := by decide

/-- **C7 amended**: `/request-password-reset` returns the generic
"if registered…" 200 exactly when NO account exists for the email; when an
account exists the response is always one of three distinguishable others
(429 rate-limited, 200 "Password reset code sent to your email", or 500 on
send failure), so the endpoint leaks account existence. -/
theorem SupabaseAuth.requestPasswordReset_reveals_existence
    (otps : List OtpRecord) (profiles : List Profile) (email freshOtp : String)
    (freshId : Nat) (now : Int) (emailSendOk : Bool)
    (he : email ≠ "") (hv : validateEmail email = true) :
    (findByEmail profiles (sanitizeEmail email) = none →
      (requestPasswordReset otps profiles email freshOtp freshId now emailSendOk).1
        = { status := 200, success := true,
            message := some "If the email is registered, you will receive a password reset code shortly." }) ∧
    (∀ u, findByEmail profiles (sanitizeEmail email) = some u →
      (requestPasswordReset otps profiles email freshOtp freshId now emailSendOk).1.message
        ≠ some "If the email is registered, you will receive a password reset code shortly.") := by
  have hstep : requestPasswordReset otps profiles email freshOtp freshId now emailSendOk =
      (match findByEmail profiles (sanitizeEmail email) with
      | none =>
        ({ status := 200, success := true,
           message := some "If the email is registered, you will receive a password reset code shortly." },
         otps)
      | some _ =>
        if (checkRateLimit otps (sanitizeEmail email) "password_reset" now).limited then
          ({ status := 429, success := false,
             message := some "Please wait before requesting another password reset code" },
           otps)
        else if emailSendOk then
          ({ status := 200, success := true,
             message := some "Password reset code sent to your email" },
           storeOTP otps (sanitizeEmail email) freshOtp "password_reset" now freshId)
        else
          ({ status := 500, success := false,
             message := some "Failed to send password reset email" },
           storeOTP otps (sanitizeEmail email) freshOtp "password_reset" now freshId)) := by
    unfold requestPasswordReset
    rw [if_neg he, if_neg (by simp [hv])]
  constructor
  · intro hnone
    rw [hstep, hnone]
  · intro u hu
    rw [hstep, hu]
    by_cases hrl : (checkRateLimit otps (sanitizeEmail email) "password_reset" now).limited
      = true
    · rw [if_pos hrl]
      simp
    · rw [if_neg hrl]
      cases emailSendOk with
      | true => simp
      | false => simp

/-- Witness for the amended C7: a concrete registered account versus the
empty directory. -/
theorem SupabaseAuth.requestPasswordReset_reveals_existence_witness :
    "alice@test.com" ≠ "" ∧ SupabaseAuth.validateEmail "alice@test.com" = true ∧
    ((SupabaseAuth.findByEmail [⟨1, "alice@test.com", some "h"⟩]
        (SupabaseAuth.sanitizeEmail "alice@test.com") = none →
      (SupabaseAuth.requestPasswordReset [] [⟨1, "alice@test.com", some "h"⟩]
          "alice@test.com" "123456" 1 0 true).1
        = { status := 200, success := true,
            message := some "If the email is registered, you will receive a password reset code shortly." }) ∧
    (∀ u, SupabaseAuth.findByEmail [⟨1, "alice@test.com", some "h"⟩]
        (SupabaseAuth.sanitizeEmail "alice@test.com") = some u →
      (SupabaseAuth.requestPasswordReset [] [⟨1, "alice@test.com", some "h"⟩]
          "alice@test.com" "123456" 1 0 true).1.message
        ≠ some "If the email is registered, you will receive a password reset code shortly.")) :=
  ⟨by decide, by decide,
    SupabaseAuth.requestPasswordReset_reveals_existence [] [⟨1, "alice@test.com", some "h"⟩]
      "alice@test.com" "123456" 1 0 true (by decide) (by decide)⟩

/-- **C9 counterexample**: the claim says password verification against an
absent stored hash returns `false` and does not raise. The `verifyPassword`
shipped in `src/services/userService.js` forwards the absent hash straight to
`bcrypt.compare`, which rejects: at the concrete secret "secret" the call
yields the error "data and hash arguments required", not `Except.ok false`. -/
theorem SupabaseAuth.verifyPassword_absent_hash_counterexample :
    SupabaseAuth.verifyPassword (fun _ _ => false) "secret" none
      = Except.error "data and hash arguments required" ∧
    SupabaseAuth.verifyPassword (fun _ _ => false) "secret" none ≠ Except.ok false :=
  ⟨rfl, by simp [SupabaseAuth.verifyPassword]⟩

/-- **C9 amended**: the guarded `verifyPassword` variant
(`src/unnamed/part_005`) returns `false` without error for every secret when
the stored hash is absent, as the claim demands; the `verifyPassword` of
`src/services/userService.js`, however, raises bcrypt's
"data and hash arguments required" error instead for every secret. -/
theorem SupabaseAuth.verifyPassword_absent_hash_behaviour
    (check : String → String → Bool) (password : String) :
    verifyPassword_guarded check password none = Except.ok false ∧
    verifyPassword check password none
      = Except.error "data and hash arguments required" :=
  ⟨rfl, rfl⟩
